import Mathlib

/-!
# wscan: the notification-to-delivery pipeline of `wscan.go`

A shallow embedding of `src/wscan.go`.

* Strings are Lean strings, Go errors are their message strings, a nil error is `none`.
* Channels live in a heap of closed-flags (`List Bool`); a channel value is its index.
  `make` appends an open channel, `close` of a closed channel panics.
* The libraries the program calls are the environment `Env`: `url.Parse`, `http.Get`
  followed by `resp.Cookies()`, `websocket.DialConfig` and the JSON decoding of a
  response body.  What the network delivers to the worker is a script of `Notification`s,
  one per call of `websocket.JSON.Receive`, each with the reply `http.DefaultClient.Do`
  gives when the worker sends a content request for it.
* The background goroutine `run` is a program counter `PC` and a step function
  `workerStep`; the caller's operations `Close`, `Next`, `Err` act on the same state `Sys`.
-/

namespace Wscan

/-! ## Data model -/

/-- A Go `error` value, represented by its message. -/
abbrev Error := String

/-- Go `type Config struct` (lines 16-18). -/
structure Config where
  Agent : String
deriving DecidableEq, Repr

/-- Go `var DefaultUserAgent` (line 13). -/
def DefaultUserAgent : String :=
  "Mozilla/5.0 (Windows NT 10.0; Win64; x64) AppleWebKit/537.36 (KHTML, like Gecko) Chrome/62.0.3202.94 Safari/537.36"

/-- Go `http.Header`: the added key/value pairs, in the order of the `Add` calls. -/
abbrev Header := List (String × String)

/-- Go `http.Header.Add` (the keys used by the program are already canonical). -/
def Header.Add (h : Header) (key value : String) : Header := h ++ [(key, value)]

/-- Lookup of the first value stored under a key, `none` when the key is absent. -/
def Header.lookup (h : Header) (key : String) : Option String :=
  (h.find? (fun kv => kv.1 = key)).map (fun kv => kv.2)

/-- Go `*url.URL`, kept as the text it was parsed from. -/
structure URL where
  raw : String
deriving DecidableEq, Repr

/-- Go `*http.Request` as built by `http.NewRequest`: method, URL and header. -/
structure Request where
  Method : String
  URL : URL
  Header : Header
deriving DecidableEq, Repr

/-- Go `*http.Response`, reduced to the body the worker reads. -/
structure Response where
  Body : String
deriving DecidableEq, Repr

/-- Go `*http.Cookie`, reduced to the two fields `mksession` reads. -/
structure Cookie where
  Name : String
  Value : String
deriving DecidableEq, Repr

/-- Headers of one body part (lines 107-110). -/
structure PartHeaders where
  Contenttype : String
  Contenttransferencoding : String
deriving DecidableEq, Repr

/-- One element of `Message.Data.Parts` (lines 106-112). -/
structure Part where
  Headers : PartHeaders
  Body : String
deriving DecidableEq, Repr

/-- Go `Message.Data.Headers` (lines 87-99). -/
structure DataHeaders where
  Date : String
  From : String
  Contenttype : String
  Dkimsignature : String
  Mimeversion : String
  Subject : String
  Feedbackid : String
  Messageid : String
  Received : String
  To : String
  Xsesoutgoing : String
deriving DecidableEq, Repr

/-- Go `Message.Data` (lines 85-113). -/
structure MessageData where
  Fromfull : String
  Headers : DataHeaders
  Subject : String
  RequestID : String
  Origfrom : String
  Id : String
  Time : Int
  SecondsAgo : Int
  Parts : List Part
deriving DecidableEq, Repr

/-- Go `type Message struct` (lines 82-114). -/
structure Message where
  From : String
  To : String
  Data : MessageData
deriving DecidableEq, Repr

/-- The zero value `Message{}` (line 179). -/
def Message.zero : Message :=
  { From := "", To := "",
    Data := { Fromfull := "",
              Headers := { Date := "", From := "", Contenttype := "", Dkimsignature := "",
                           Mimeversion := "", Subject := "", Feedbackid := "", Messageid := "",
                           Received := "", To := "", Xsesoutgoing := "" },
              Subject := "", RequestID := "", Origfrom := "", Id := "",
              Time := 0, SecondsAgo := 0, Parts := [] } }

/-- The value found under the key `"id"` of the decoded notification (an `interface{}`):
a JSON string, or any other JSON value together with its rendering under the `%s` verb. -/
inductive JVal where
  | str (s : String)
  | other (shown : String)
deriving DecidableEq, Repr

/-- Go `fmt.Sprintf("%s", v)` for the value of the `"id"` key. -/
def JVal.sprint : JVal → String
  | .str s => s
  | .other shown => shown

/-- Go `*websocket.Conn`: an opaque handle. -/
structure Conn where
  handle : Nat
deriving DecidableEq, Repr

/-- Go `websocket.Config` as filled in by `mkws` (lines 125-130); a nil URL is `none`. -/
structure WsConfig where
  Location : Option URL
  Origin : Option URL
  Header : Header
  Version : Nat
deriving DecidableEq, Repr

/-- Go `type Inbox struct` (lines 20-32).  `RX` and `stop` are channel indices. -/
structure Inbox where
  RX : Nat
  conf : Config
  sess : String
  host : String
  inbox : String
  ws : Option Conn
  stop : Nat
  err : Option Error
deriving DecidableEq, Repr

/-- The library functions the program calls. -/
structure Env where
  /-- The function `url.Parse`. -/
  urlParse : String → Except Error URL
  /-- The call `http.Get(url)` followed by `resp.Cookies()`. -/
  httpGet : String → Except Error (List Cookie)
  /-- The function `websocket.DialConfig`. -/
  dialConfig : WsConfig → Except Error Conn
  /-- The call `json.NewDecoder(body).Decode(&msg)` on a zero `msg`: the message as the
  decoder leaves it, and the returned error. -/
  jsonDecode : String → Message × Option Error

deriving instance DecidableEq for Except

/-- One call of `websocket.JSON.Receive(in.ws, &data)` as the worker sees it: the returned
error, the `"id"` entry of `data` afterwards, and the reply of `http.DefaultClient.Do` to the
content request of this event, should the worker send one. -/
structure Notification where
  recvErr : Option Error
  id : Option JVal
  reply : Except Error Response
deriving DecidableEq

/-! ## Channels -/

/-- Go `make(chan T)`: a fresh open channel. -/
def makeChan (chans : List Bool) : Nat × List Bool := (chans.length, chans ++ [false])

/-- Whether a channel has been closed. -/
def isClosed (chans : List Bool) (c : Nat) : Bool := chans.getD c false

/-- The effect of `close(c)` on the heap (the caller checks for the double close). -/
def closeChan (chans : List Bool) (c : Nat) : List Bool := chans.set c true

/-! ## Requests: `Get`, `msgfmt`, `parseurl`, `mkws`, `mksession` -/

/-- Go `http.NewRequest(method, url, nil)`: fails exactly when `url.Parse` fails; the new
request has an empty header. -/
def NewRequest (env : Env) (method url : String) : Except Error Request :=
  match env.urlParse url with
  | .error e => .error e
  | .ok u => .ok { Method := method, URL := u, Header := [] }

set_option linter.unusedVariables false in
/-- Go `func (in *Inbox) Get` (lines 71-80).  Returns the request handed to
`http.DefaultClient.Do` (if any) and the result; `reply` is what the client answers. -/
def Inbox.Get (env : Env) (inb : Inbox) (name : String) (reply : Except Error Response) :
    Option Request × Except Error Response :=
  let h : Header := []
  let h := h.Add "User-Agent" inb.conf.Agent
  let h := h.Add "Cookie" ("JSESSIONID=" ++ inb.sess)
  match NewRequest env "GET" name with
  | .error err => (none, .error ("get: " ++ err))
  | .ok r => (some r, reply)

/-- Go `func (in *Inbox) msgfmt` (lines 138-140). -/
def Inbox.msgfmt (inb : Inbox) (id : JVal) : String :=
  "https://" ++ inb.host ++ "/fetch_email?msgid=" ++ id.sprint ++ "&zone=public"

/-- Go `func (in *Inbox) parseurl` (lines 116-119), applied to the formatted string:
the result of `url.Parse` goes to the return value and to `in.err`. -/
def Inbox.parseurl (env : Env) (inb : Inbox) (s : String) : Option URL × Inbox :=
  match env.urlParse s with
  | .ok u => (some u, { inb with err := none })
  | .error e => (none, { inb with err := some e })

/-- Outcome of `mkws`: the returned error, the receiver afterwards, and the configuration
passed to `websocket.DialConfig` when it was called. -/
structure MkwsResult where
  ret : Option Error
  inb : Inbox
  dialed : Option WsConfig

/-- Go `func (in *Inbox) mkws` (lines 121-136). -/
def Inbox.mkws (env : Env) (inb : Inbox) : MkwsResult :=
  let h : Header := []
  let h := h.Add "User-Agent" inb.conf.Agent
  let h := h.Add "Cookie" ("JSESSIONID=" ++ inb.sess)
  let (loc, inb1) := inb.parseurl env
    ("wss://" ++ inb.host ++ "/ws/fetchinbox?zone=public&query=" ++ inb.inbox)
  let (org, inb2) := inb1.parseurl env ("https://" ++ inb1.host)
  let c : WsConfig := { Location := loc, Origin := org, Header := h, Version := 13 }
  match inb2.err with
  | some e => { ret := some e, inb := inb2, dialed := none }
  | none =>
    match env.dialConfig c with
    | .ok conn => { ret := none, inb := { inb2 with ws := some conn, err := none }, dialed := some c }
    | .error e => { ret := some e, inb := { inb2 with ws := none, err := some e }, dialed := some c }

/-- The `for _, c := range resp.Cookies()` loop of `mksession` (lines 147-152). -/
def mksessionLoop : List Cookie → Inbox → Inbox
  | [], inb => inb
  | c :: cs, inb =>
    if c.Name = "JSESSIONID" then { inb with sess := c.Value } else mksessionLoop cs inb

/-- Go `func (in *Inbox) mksession` (lines 142-157): the returned error and the receiver
afterwards. -/
def Inbox.mksession (env : Env) (inb : Inbox) : Option Error × Inbox :=
  match env.httpGet ("https://" ++ inb.host) with
  | .error err => (some ("mksession: " ++ err), inb)
  | .ok cookies =>
    let inb1 := mksessionLoop cookies inb
    if inb1.sess = "" then (some "cant find JSESSION cookie in HTTP response", inb1)
    else (none, inb1)

/-! ## The worker `run` and the caller's operations -/

/-- Where the goroutine `run` stands. -/
inductive PC where
  /-- Spawned by `go in.run()`, nothing executed yet. -/
  | start
  /-- About to evaluate the loop condition `in.err == nil` (line 166). -/
  | loop
  /-- About to evaluate the `select` (line 167). -/
  | select
  /-- In the `default` branch, inside `websocket.JSON.Receive` (lines 169-170). -/
  | receive
  /-- Inside `in.Get(in.msgfmt(id))` (line 175). -/
  | fetch (id : JVal) (reply : Except Error Response)
  /-- Blocked in the send `in.RX <- &msg` (line 184). -/
  | send (msg : Message)
  /-- Returned; the deferred `close(in.RX)` has run. -/
  | exited
deriving DecidableEq

/-- The whole pipeline: the receiver, the channel heap, the worker, the notifications still
to arrive, and the observable history. -/
structure Sys where
  inb : Inbox
  chans : List Bool
  pc : PC
  frames : List Notification
  /-- URLs the worker has passed to `Get`. -/
  gets : List String
  /-- Requests handed to `http.DefaultClient.Do`. -/
  sent : List Request
  /-- Messages the consumer has taken from `RX`. -/
  delivered : List Message
deriving DecidableEq

/-- Leaving `run`: the deferred `close(in.RX)` (line 164). -/
def exitRun (s : Sys) : Sys :=
  { s with pc := .exited, chans := closeChan s.chans s.inb.RX }

/-- One step of `func (in *Inbox) run` (lines 159-189); `none` when the worker is blocked
(no notification has arrived, or nobody takes the pending send) or has returned. -/
def workerStep (env : Env) (s : Sys) : Option Sys :=
  match s.pc with
  | .start =>
    let (c, chans) := makeChan s.chans
    some { s with inb := { s.inb with stop := c }, chans := chans, pc := .loop }
  | .loop =>
    if s.inb.err = none then some { s with pc := .select } else some (exitRun s)
  | .select =>
    if isClosed s.chans s.inb.stop then some (exitRun s) else some { s with pc := .receive }
  | .receive =>
    match s.frames with
    | [] => none
    | ev :: rest =>
      let s1 := { s with frames := rest, inb := { s.inb with err := ev.recvErr } }
      match ev.id with
      | none => some { s1 with pc := .loop }
      | some id => some { s1 with pc := .fetch id ev.reply }
  | .fetch id reply =>
    let name := s.inb.msgfmt id
    let (req, res) := s.inb.Get env name reply
    let s1 := { s with gets := s.gets ++ [name], sent := s.sent ++ req.toList }
    match res with
    | .error e => some (exitRun { s1 with inb := { s1.inb with err := some e } })
    | .ok resp =>
      let s2 := { s1 with inb := { s1.inb with err := none } }
      let msg := (env.jsonDecode resp.Body).1
      if msg.Data.Parts.length = 0 then some { s2 with pc := .loop }
      else some { s2 with pc := .send msg }
  | .send _ => none
  | .exited => none

/-- Go `func (in *Inbox) Close` (lines 58-61): `close(in.stop)` panics when that channel is
already closed (`.error`); otherwise the channel is closed and `in.err` returned. -/
def Close (s : Sys) : Except String (Option Error × Sys) :=
  if isClosed s.chans s.inb.stop then .error "close of closed channel"
  else .ok (s.inb.err, { s with chans := closeChan s.chans s.inb.stop })

/-- Go `func (in *Inbox) Next` (lines 63-65): `<-in.RX`.  Takes the message of a pending send
(the worker then goes on to the loop condition), yields nil (`none`) on a closed channel,
and blocks (outer `none`) otherwise. -/
def Next (s : Sys) : Option (Option Message × Sys) :=
  match s.pc with
  | .send msg => some (some msg, { s with pc := .loop, delivered := s.delivered ++ [msg] })
  | _ => if isClosed s.chans s.inb.RX then some (none, s) else none

/-- Go `func (in *Inbox) Err` (lines 67-69). -/
def Err (s : Sys) : Option Error := s.inb.err

/-- Go `func New` (lines 34-56): on success the pipeline with the worker spawned and not yet
run; `frames` are the notifications the connection will deliver. -/
def New (env : Env) (host inbox : String) (conf : Option Config)
    (frames : List Notification) : Except Error Sys :=
  let conf := match conf with
    | none => { Agent := DefaultUserAgent }
    | some c => c
  let (rx, chans) := makeChan []
  let (stop, chans) := makeChan chans
  let inb : Inbox :=
    { RX := rx, conf := conf, sess := "", host := host, inbox := inbox, ws := none,
      stop := stop, err := none }
  match inb.mksession env with
  | (some err, _) => .error err
  | (none, inb) =>
    let r := inb.mkws env
    match r.ret with
    | some err => .error err
    | none =>
      .ok { inb := r.inb, chans := chans, pc := .start, frames := frames,
            gets := [], sent := [], delivered := [] }

/-- One tick of a run without stop signal in which the consumer takes every delivery: the
worker steps when it can; when it is blocked in the send, the consumer calls `Next`. -/
def tick (env : Env) (s : Sys) : Sys :=
  match workerStep env s with
  | some s' => s'
  | none =>
    match s.pc with
    | .send _ =>
      match Next s with
      | some (_, s') => s'
      | none => s
    | _ => s

/-- The run of `n` ticks. -/
def run (env : Env) : Nat → Sys → Sys
  | 0, s => s
  | n + 1, s => run env n (tick env s)

/-- The worker running alone for `n` steps (no consumer): it stops where it blocks. -/
def workerRun (env : Env) : Nat → Sys → Sys
  | 0, s => s
  | n + 1, s =>
    match workerStep env s with
    | some s' => workerRun env n s'
    | none => s

/-! ## Concrete scenarios -/

/-- Go's `stringContainsCTLByte` test on one character: `url.Parse` rejects these. -/
def isCTL (c : Char) : Bool := c.toNat < 32 || c.toNat == 127

/-- A message with one body part. -/
def msgOne : Message :=
  { Message.zero with
    From := "a@example.org", To := "box@example.org",
    Data := { Message.zero.Data with
              Id := "42", Parts := [{ Headers := ⟨"text/plain", "7bit"⟩, Body := "hello" }] } }

/-- A message cut short by a decoding error after its first part was stored. -/
def msgPartial : Message :=
  { Message.zero with
    Data := { Message.zero.Data with
              Parts := [{ Headers := ⟨"text/plain", ""⟩, Body := "" }] } }

/-- A sample environment: `url.Parse` rejects control characters, the bootstrap response
sets `JSESSIONID=abc`, the websocket library refuses a nil Location or Origin (as
`golang.org/x/net/websocket` does) and dials otherwise, and four bodies are understood by
the decoder. -/
def demoEnv : Env :=
  { urlParse := fun s =>
      if s.toList.any isCTL then .error "net/url: invalid control character in URL"
      else .ok ⟨s⟩
    httpGet := fun _ => .ok [⟨"lang", "en"⟩, ⟨"JSESSIONID", "abc"⟩]
    dialConfig := fun c =>
      if c.Location = none then .error "websocket: bad location"
      else if c.Origin = none then .error "websocket: bad origin"
      else .ok ⟨1⟩
    jsonDecode := fun body =>
      if body = "one" then (msgOne, none)
      else if body = "noparts" then (Message.zero, none)
      else if body = "garbage" then (Message.zero, some "invalid character")
      else if body = "partial" then (msgPartial, some "json: cannot unmarshal string into int")
      else (Message.zero, some "EOF") }

/-- The sample environment with a websocket library that dials whatever it is given. -/
def laxEnv : Env := { demoEnv with dialConfig := fun _ => .ok ⟨1⟩ }

/-- A bootstrap response whose first `JSESSIONID` cookie is empty and whose second is not. -/
def shadowedCookies : List Cookie := [⟨"JSESSIONID", ""⟩, ⟨"JSESSIONID", "abc"⟩]

/-- The sample environment with the bootstrap response `shadowedCookies`. -/
def shadowEnv : Env := { demoEnv with httpGet := fun _ => .ok shadowedCookies }

/-- The receiver as `New` builds it before `mksession` (lines 40-46). -/
def freshInbox (host inbox : String) (conf : Config) : Inbox :=
  { RX := 0, conf := conf, sess := "", host := host, inbox := inbox, ws := none,
    stop := 1, err := none }

/-- A receiver with an established session. -/
def demoInbox : Inbox :=
  { freshInbox "h.example" "box" ⟨"UA/1.0"⟩ with sess := "abc", ws := some ⟨1⟩ }

/-- The pipeline `New` returns in the sample environment, given the notifications to come. -/
def demoSys (frames : List Notification) : Sys :=
  { inb := demoInbox, chans := [false, false], pc := .start, frames := frames,
    gets := [], sent := [], delivered := [] }

/-- A notification carrying the identifier `id`, answered with the body `body`. -/
def notify (id body : String) : Notification :=
  { recvErr := none, id := some (.str id), reply := .ok ⟨body⟩ }

/-- A notification without an `"id"` entry. -/
def notifyNoId : Notification :=
  { recvErr := none, id := none, reply := .error "not requested" }

/-- The worker blocked in the send of `msgOne`, with nobody calling `Next`: the state the
sample pipeline reaches after the notification `42` has been fetched. -/
def pendingSys : Sys :=
  { inb := { demoInbox with stop := 2 }, chans := [false, false, false], pc := .send msgOne,
    frames := [],
    gets := ["https://h.example/fetch_email?msgid=42&zone=public"],
    sent := [{ Method := "GET", URL := ⟨"https://h.example/fetch_email?msgid=42&zone=public"⟩,
               Header := [] }],
    delivered := [] }

/-- The deliveries the specification expects from a script of events, in arrival order:
the decoded fetch result of every event that carries an identifier and whose fetched
message has at least one body part. -/
def expectedDeliveries (env : Env) (evs : List Notification) : List Message :=
  evs.filterMap (fun ev =>
    match ev.id, ev.reply with
    | some _, .ok resp =>
      if (env.jsonDecode resp.Body).1.Data.Parts = [] then none
      else some (env.jsonDecode resp.Body).1
    | _, _ => none)

/-- The fetches the specification expects from a script of events, in arrival order: one
per event with a string identifier, at `https://{host}/fetch_email?msgid={id}&zone=public`. -/
def expectedFetches (host : String) (evs : List Notification) : List String :=
  evs.filterMap (fun ev =>
    match ev.id with
    | some (.str id) => some ("https://" ++ host ++ "/fetch_email?msgid=" ++ id ++ "&zone=public")
    | _ => none)

/-- What the caller and the worker can do, for arbitrary interleavings. -/
inductive Action where
  | worker
  | next
  | close
deriving DecidableEq, Repr

/-- The state after one action; an action that blocks or panics leaves the state as it is. -/
def act (env : Env) (s : Sys) : Action → Sys
  | .worker => (workerStep env s).getD s
  | .next =>
    match Next s with
    | some (_, s') => s'
    | none => s
  | .close =>
    match Close s with
    | .ok (_, s') => s'
    | .error _ => s

end Wscan

namespace Wscan

/-! ## Basic facts -/

theorem New_demo (frames : List Notification) :
    New demoEnv "h.example" "box" (some ⟨"UA/1.0"⟩) frames = .ok (demoSys frames) := by
  rfl

theorem Get_fst_header (env : Env) (inb : Inbox) (name : String)
    (reply : Except Error Response) (r : Request)
    (h : (inb.Get env name reply).1 = some r) : r.Header = [] := by
  unfold Inbox.Get NewRequest at h
  cases hp : env.urlParse name with
  | error e => simp [hp] at h
  | ok u =>
    simp [hp] at h
    rw [← h]

theorem Get_of_parse_ok (env : Env) (inb : Inbox) (name : String)
    (reply : Except Error Response) (u : URL) (h : env.urlParse name = .ok u) :
    inb.Get env name reply = (some { Method := "GET", URL := u, Header := [] }, reply) := by
  simp [Inbox.Get, NewRequest, h]

theorem Get_of_parse_error (env : Env) (inb : Inbox) (name : String)
    (reply : Except Error Response) (e : Error) (h : env.urlParse name = .error e) :
    inb.Get env name reply = (none, .error ("get: " ++ e)) := by
  simp [Inbox.Get, NewRequest, h]

theorem mksessionLoop_eq (cs : List Cookie) (inb : Inbox) :
    mksessionLoop cs inb =
      match cs.find? (fun c => c.Name = "JSESSIONID") with
      | some c => { inb with sess := c.Value }
      | none => inb := by
  induction cs with
  | nil => rfl
  | cons c cs ih =>
    by_cases hc : c.Name = "JSESSIONID"
    · simp [mksessionLoop, hc]
    · simp [mksessionLoop, hc, ih]

theorem isClosed_closeChan (chans : List Bool) (c : Nat) (h : c < chans.length) :
    isClosed (closeChan chans c) c = true := by
  simp [isClosed, closeChan, List.getD, h]

/-! ## Step lemmas for the worker -/

theorem workerRun_succ (env : Env) (n : Nat) (s s1 : Sys) (h : workerStep env s = some s1) :
    workerRun env (n + 1) s = workerRun env n s1 := by
  simp [workerRun, h]

theorem workerRun_step {env : Env} {n : Nat} {s s1 t : Sys} (h : workerStep env s = some s1)
    (ht : workerRun env n s1 = t) : workerRun env (n + 1) s = t := by
  rw [workerRun_succ env n s s1 h, ht]

theorem workerRun_blocked (env : Env) (n : Nat) (s : Sys) (h : workerStep env s = none) :
    workerRun env n s = s := by
  cases n <;> simp [workerRun, h]

theorem workerStep_start (env : Env) (s : Sys) (h : s.pc = .start) :
    workerStep env s
      = some { s with inb := { s.inb with stop := s.chans.length },
                      chans := s.chans ++ [false], pc := .loop } := by
  simp [workerStep, h, makeChan]

theorem workerStep_loop (env : Env) (s : Sys) (h : s.pc = .loop) (herr : s.inb.err = none) :
    workerStep env s = some { s with pc := .select } := by
  simp [workerStep, h, herr]

theorem workerStep_loop_err (env : Env) (s : Sys) (h : s.pc = .loop) (e : Error)
    (herr : s.inb.err = some e) :
    workerStep env s = some (exitRun s) := by
  simp [workerStep, h, herr]

theorem workerStep_select (env : Env) (s : Sys) (h : s.pc = .select)
    (hopen : isClosed s.chans s.inb.stop = false) :
    workerStep env s = some { s with pc := .receive } := by
  simp [workerStep, h, hopen]

theorem workerStep_select_stop (env : Env) (s : Sys) (h : s.pc = .select)
    (hstop : isClosed s.chans s.inb.stop = true) :
    workerStep env s = some (exitRun s) := by
  simp [workerStep, h, hstop]

theorem workerStep_receive_nil (env : Env) (s : Sys) (h : s.pc = .receive)
    (hfr : s.frames = []) :
    workerStep env s = none := by
  simp [workerStep, h, hfr]

theorem workerStep_receive_noid (env : Env) (s : Sys) (ev : Notification)
    (rest : List Notification) (h : s.pc = .receive) (hfr : s.frames = ev :: rest)
    (hid : ev.id = none) :
    workerStep env s
      = some { s with frames := rest, inb := { s.inb with err := ev.recvErr }, pc := .loop } := by
  simp [workerStep, h, hfr, hid]

theorem workerStep_receive_id (env : Env) (s : Sys) (ev : Notification)
    (rest : List Notification) (id : JVal) (h : s.pc = .receive) (hfr : s.frames = ev :: rest)
    (hid : ev.id = some id) :
    workerStep env s
      = some { s with frames := rest, inb := { s.inb with err := ev.recvErr },
                      pc := .fetch id ev.reply } := by
  simp [workerStep, h, hfr, hid]

theorem workerStep_fetch_error (env : Env) (s : Sys) (id : JVal)
    (reply : Except Error Response) (e : Error) (h : s.pc = .fetch id reply)
    (hget : (s.inb.Get env (s.inb.msgfmt id) reply).2 = .error e) :
    workerStep env s
      = some (exitRun { s with gets := s.gets ++ [s.inb.msgfmt id],
                               sent := s.sent ++ (s.inb.Get env (s.inb.msgfmt id) reply).1.toList,
                               inb := { s.inb with err := some e } }) := by
  simp [workerStep, h, hget]

theorem workerStep_fetch_ok (env : Env) (s : Sys) (id : JVal)
    (reply : Except Error Response) (resp : Response) (h : s.pc = .fetch id reply)
    (hget : (s.inb.Get env (s.inb.msgfmt id) reply).2 = .ok resp) :
    workerStep env s
      = some { s with gets := s.gets ++ [s.inb.msgfmt id],
                      sent := s.sent ++ (s.inb.Get env (s.inb.msgfmt id) reply).1.toList,
                      inb := { s.inb with err := none },
                      pc := if (env.jsonDecode resp.Body).1.Data.Parts.length = 0 then .loop
                            else .send (env.jsonDecode resp.Body).1 } := by
  by_cases hp : (env.jsonDecode resp.Body).1.Data.Parts = []
  · simp [workerStep, h, hget, hp]
  · simp [workerStep, h, hget, hp]

theorem workerStep_exited (env : Env) (s : Sys) (h : s.pc = .exited) :
    workerStep env s = none := by
  simp [workerStep, h]

/-! ## C2: the headers of `Get` -/

/-- C2, as the code behaves: with the agent `UA/1.0` and the session `abc` configured, the
request that `Get` hands to the HTTP client for a well-formed content URL has an empty
header, so it carries neither a `User-Agent` nor a `Cookie` entry; the header `h` built on
lines 72-74 is never attached to the request. -/
theorem Get_request_without_headers :
    demoInbox.conf.Agent = "UA/1.0" ∧ demoInbox.sess = "abc" ∧
    (demoInbox.Get demoEnv "https://h.example/fetch_email?msgid=7&zone=public" (.ok ⟨"one"⟩)).1
      = some { Method := "GET",
               URL := ⟨"https://h.example/fetch_email?msgid=7&zone=public"⟩,
               Header := [] } ∧
    ((demoInbox.Get demoEnv "https://h.example/fetch_email?msgid=7&zone=public"
        (.ok ⟨"one"⟩)).1.map
      (fun r => (r.Header.lookup "User-Agent", r.Header.lookup "Cookie"))) = some (none, none) := by
  decide

/-! ## C9: `mksession` -/

/-- C9, counterexample: the cookie list `JSESSIONID=""`, `JSESSIONID="abc"` contains a cookie
named `JSESSIONID` with a non-empty value, yet `mksession` on a fresh receiver returns the
session-missing error (and `New` returns no pipeline): the loop stops at the first cookie
of that name. -/
theorem mksession_shadowed_cookie :
    (∃ c ∈ shadowedCookies, c.Name = "JSESSIONID" ∧ c.Value ≠ "") ∧
    shadowEnv.httpGet ("https://" ++ "h.example") = .ok shadowedCookies ∧
    ((freshInbox "h.example" "box" ⟨"UA/1.0"⟩).mksession shadowEnv).1
      = some "cant find JSESSION cookie in HTTP response" ∧
    New shadowEnv "h.example" "box" (some ⟨"UA/1.0"⟩) []
      = .error "cant find JSESSION cookie in HTTP response" := by
  decide

/-- C9, amended: for every list of response cookies and every receiver with an empty
session, `mksession` succeeds if and only if the first cookie named `JSESSIONID` has a
non-empty value; on success the stored session is non-empty and is the value of that first
cookie (a cookie of the list); otherwise it returns the session-missing error and `New`
returns that error instead of a pipeline. -/
theorem mksession_first_cookie (env : Env) (inb : Inbox) (cookies : List Cookie)
    (hsess : inb.sess = "")
    (hget : env.httpGet ("https://" ++ inb.host) = .ok cookies) :
    ((inb.mksession env).1 = none ↔
      ∃ c, cookies.find? (fun c => c.Name = "JSESSIONID") = some c ∧ c.Value ≠ "") ∧
    ((inb.mksession env).1 = none →
      (inb.mksession env).2.sess ≠ "" ∧
      ∃ c ∈ cookies, c.Name = "JSESSIONID" ∧
        cookies.find? (fun c => c.Name = "JSESSIONID") = some c ∧
        (inb.mksession env).2.sess = c.Value) ∧
    ((inb.mksession env).1 ≠ none →
      (inb.mksession env).1 = some "cant find JSESSION cookie in HTTP response" ∧
      ∀ (inbox : String) (conf : Option Config) (frames : List Notification),
        New env inb.host inbox conf frames
          = .error "cant find JSESSION cookie in HTTP response") := by
  have hloop := mksessionLoop_eq cookies inb
  cases hf : cookies.find? (fun c => c.Name = "JSESSIONID") with
  | none =>
    rw [hf] at hloop
    have hm : inb.mksession env = (some "cant find JSESSION cookie in HTTP response", inb) := by
      simp [Inbox.mksession, hget, hloop, hsess]
    refine ⟨by simp [hm], by simp [hm], fun _ => ⟨by simp [hm], ?_⟩⟩
    intro inbox conf frames
    have hl : ∀ i : Inbox, mksessionLoop cookies i = i := by
      intro i
      rw [mksessionLoop_eq, hf]
    simp [New, Inbox.mksession, hget, hl, makeChan]
  | some c =>
    rw [hf] at hloop
    have hmem : c ∈ cookies := List.mem_of_find?_eq_some hf
    have hname : c.Name = "JSESSIONID" := by
      have := List.find?_some hf
      simpa using this
    by_cases hv : c.Value = ""
    · have hm : inb.mksession env
          = (some "cant find JSESSION cookie in HTTP response", { inb with sess := c.Value }) := by
        simp [Inbox.mksession, hget, hloop, hv]
      refine ⟨by simp [hm, hv], by simp [hm], fun _ => ⟨by simp [hm], ?_⟩⟩
      intro inbox conf frames
      have hl : ∀ i : Inbox, mksessionLoop cookies i = { i with sess := c.Value } := by
        intro i
        rw [mksessionLoop_eq, hf]
      simp [New, Inbox.mksession, hget, hl, makeChan, hv]
    · have hm : inb.mksession env = (none, { inb with sess := c.Value }) := by
        simp [Inbox.mksession, hget, hloop, hv]
      refine ⟨by simp [hm, hv], fun _ => ⟨by simp [hm, hv], c, hmem, hname, rfl, by simp [hm]⟩,
        by simp [hm]⟩

/-- Witness for C9: the sample bootstrap response `lang=en`, `JSESSIONID=abc`. -/
theorem mksession_first_cookie_witness :
    ((freshInbox "h.example" "box" ⟨"UA/1.0"⟩).mksession demoEnv).1 = none ∧
    ((freshInbox "h.example" "box" ⟨"UA/1.0"⟩).mksession demoEnv).2.sess = "abc" ∧
    (((freshInbox "h.example" "box" ⟨"UA/1.0"⟩).mksession demoEnv).1 = none ↔
      ∃ c, [(⟨"lang", "en"⟩ : Cookie), ⟨"JSESSIONID", "abc"⟩].find?
        (fun c => c.Name = "JSESSIONID") = some c ∧ c.Value ≠ "") :=
  ⟨by decide, by decide,
   (mksession_first_cookie demoEnv (freshInbox "h.example" "box" ⟨"UA/1.0"⟩)
      [⟨"lang", "en"⟩, ⟨"JSESSIONID", "abc"⟩] rfl rfl).1⟩

/-! ## C10: `mkws` and the shared error slot -/

/-- General form of the defect behind C10: whenever the Location fails to parse and the
Origin parses, `mkws` calls `websocket.DialConfig` with a nil Location and returns whatever
the dial returns; the parse error is overwritten by the second `parseurl`. -/
theorem mkws_location_error_overwritten (env : Env) (inb : Inbox) (e : Error) (o : URL)
    (hloc : env.urlParse
      ("wss://" ++ inb.host ++ "/ws/fetchinbox?zone=public&query=" ++ inb.inbox) = .error e)
    (horg : env.urlParse ("https://" ++ inb.host) = .ok o) :
    (inb.mkws env).dialed
      = some { Location := none, Origin := some o,
               Header := [("User-Agent", inb.conf.Agent), ("Cookie", "JSESSIONID=" ++ inb.sess)],
               Version := 13 } ∧
    (inb.mkws env).ret
      = (match env.dialConfig (WsConfig.mk none (some o)
               [("User-Agent", inb.conf.Agent), ("Cookie", "JSESSIONID=" ++ inb.sess)] 13) with
         | .ok _ => none
         | .error d => some d) := by
  unfold Inbox.mkws
  simp only [Inbox.parseurl, hloc, horg, Header.Add, List.nil_append, List.singleton_append]
  cases hd : env.dialConfig (WsConfig.mk none (some o)
      [("User-Agent", inb.conf.Agent), ("Cookie", "JSESSIONID=" ++ inb.sess)] 13) <;> simp

/-- C10, as the code behaves: for host `h.example` and an inbox query containing a line
feed, parsing the push-connection URL fails and parsing the Origin succeeds; `mkws` then
calls `websocket.DialConfig` with a nil Location.  With a library that dials what it is
given `mkws` returns nil; with a library that refuses a nil Location `mkws` returns the
library's error.  In both cases the parse error is gone from the error slot. -/
theorem mkws_loses_location_error :
    demoEnv.urlParse ("wss://" ++ "h.example" ++ "/ws/fetchinbox?zone=public&query=" ++ "a\nb")
      = .error "net/url: invalid control character in URL" ∧
    demoEnv.urlParse ("https://" ++ "h.example") = .ok ⟨"https://h.example"⟩ ∧
    (({ demoInbox with inbox := "a\nb", ws := none } : Inbox).mkws laxEnv).ret = none ∧
    (({ demoInbox with inbox := "a\nb", ws := none } : Inbox).mkws laxEnv).dialed
      = some { Location := none, Origin := some ⟨"https://h.example"⟩,
               Header := [("User-Agent", "UA/1.0"), ("Cookie", "JSESSIONID=abc")],
               Version := 13 } ∧
    (({ demoInbox with inbox := "a\nb", ws := none } : Inbox).mkws laxEnv).inb.err = none ∧
    (({ demoInbox with inbox := "a\nb", ws := none } : Inbox).mkws demoEnv).dialed
      = some { Location := none, Origin := some ⟨"https://h.example"⟩,
               Header := [("User-Agent", "UA/1.0"), ("Cookie", "JSESSIONID=abc")],
               Version := 13 } ∧
    (({ demoInbox with inbox := "a\nb", ws := none } : Inbox).mkws demoEnv).ret
      = some "websocket: bad location" := by
  decide

/-! ## C4: `Close` -/

/-- C4, counterexample: on the pipeline `New` returns, the first `Close` completes and
returns the (unset) sticky error; the second `Close` on the resulting state panics with a
close of the closed stop channel. -/
theorem Close_second_call_panics :
    Close (demoSys []) = .ok (none, { demoSys [] with chans := [false, true] }) ∧
    Close { demoSys [] with chans := [false, true] } = .error "close of closed channel" := by
  decide

/-- C4, amended: `Close` is one-shot.  On every pipeline state whose current stop channel
is allocated and still open, `Close` completes (it is a plain `close`, there is nothing to
block on), closes that channel, returns the sticky error and changes nothing else; a `Close`
repeated on the state it leaves does not complete: it panics, and it does so as long as
that channel remains the current stop channel, whatever else has changed. -/
theorem Close_one_shot (s : Sys)
    (halloc : s.inb.stop < s.chans.length)
    (hopen : isClosed s.chans s.inb.stop = false) :
    Close s = .ok (s.inb.err, { s with chans := closeChan s.chans s.inb.stop }) ∧
    Close { s with chans := closeChan s.chans s.inb.stop } = .error "close of closed channel" ∧
    ∀ t : Sys, t.inb.stop = s.inb.stop → t.chans = closeChan s.chans s.inb.stop →
      Close t = .error "close of closed channel" := by
  have hc := isClosed_closeChan s.chans s.inb.stop halloc
  refine ⟨by simp [Close, hopen], by simp [Close, hc], ?_⟩
  intro t ht hch
  simp [Close, ht, hch, hc]

/-- Witness for C4: the pipeline `New` returns in the sample environment. -/
theorem Close_one_shot_witness :
    Close (demoSys []) = .ok (none, { demoSys [] with chans := [false, true] }) ∧
    Close { demoSys [] with chans := [false, true] } = .error "close of closed channel" :=
  ⟨(Close_one_shot (demoSys []) (by decide) (by decide)).1,
   (Close_one_shot (demoSys []) (by decide) (by decide)).2.1⟩

/-! ## C7: the pending send and the stop signal -/

theorem workerStep_send (env : Env) (s : Sys) (msg : Message) (h : s.pc = .send msg) :
    workerStep env s = none := by
  simp [workerStep, h]

/-- C7, counterexample: the sample pipeline, given the notification `42` whose fetched
message has one body part, reaches the state `pendingSys` in five worker steps, blocked in
the send on `RX`.  `Close` then closes the stop channel the worker selects on, and in the
resulting state the stop signal has fired, the worker is still blocked in the send, it has
no enabled step, and `RX` is open: the send on line 184 is not a case of the `select`. -/
theorem pending_send_not_preempted :
    workerRun demoEnv 5 (demoSys [notify "42" "one"]) = pendingSys ∧
    Close pendingSys = .ok (none, { pendingSys with chans := [false, false, true] }) ∧
    isClosed [false, false, true] pendingSys.inb.stop = true ∧
    ({ pendingSys with chans := [false, false, true] } : Sys).pc = .send msgOne ∧
    workerStep demoEnv { pendingSys with chans := [false, false, true] } = none ∧
    isClosed [false, false, true] pendingSys.inb.RX = false := by
  decide

/-- C7, amended: the hand-off to `RX` is not preemptible by the stop signal; the worker
polls the stop channel only in the `select` at the top of an iteration.  In every state in
which the worker is blocked in the send it has no enabled step, whether or not the stop
channel is closed, and a `Close` leaves it blocked there.  `Next` takes the message, and if
the stop channel is closed by then the worker exits within two steps, closing `RX`, with
that message the last one delivered. -/
theorem send_waits_for_consumer (env : Env) (s : Sys) (msg : Message)
    (hpc : s.pc = .send msg) :
    workerStep env s = none ∧
    (∀ n, workerRun env n s = s) ∧
    (∀ r s1, Close s = .ok (r, s1) → s1.pc = .send msg ∧ workerStep env s1 = none) ∧
    Next s = some (some msg, { s with pc := .loop, delivered := s.delivered ++ [msg] }) ∧
    (isClosed s.chans s.inb.stop = true → ∀ n, 2 ≤ n →
      workerRun env n { s with pc := .loop, delivered := s.delivered ++ [msg] }
        = { s with pc := .exited, chans := closeChan s.chans s.inb.RX,
                   delivered := s.delivered ++ [msg] }) := by
  refine ⟨workerStep_send env s msg hpc,
    fun n => workerRun_blocked env n s (workerStep_send env s msg hpc), ?_, ?_, ?_⟩
  · intro r s1 hclose
    unfold Close at hclose
    split at hclose
    · cases hclose
    · cases hclose
      exact ⟨hpc, workerStep_send env _ msg hpc⟩
  · simp [Next, hpc]
  · intro hstop n hn
    obtain ⟨m, rfl⟩ : ∃ m, n = m + 1 + 1 := ⟨n - 2, by omega⟩
    cases herr : s.inb.err with
    | none =>
      exact workerRun_step (workerStep_loop env _ rfl herr)
        (workerRun_step (workerStep_select_stop env _ rfl hstop)
          (workerRun_blocked env m _ (workerStep_exited env _ rfl)))
    | some e =>
      exact workerRun_step (workerStep_loop_err env _ rfl e herr)
        (workerRun_blocked env (m + 1) _ (workerStep_exited env _ rfl))

/-- Witness for C7: the sample pipeline blocked in the send of `msgOne` after `Close`. -/
theorem send_waits_for_consumer_witness :
    workerStep demoEnv { pendingSys with chans := [false, false, true] } = none ∧
    workerRun demoEnv 2
        { pendingSys with chans := [false, false, true], pc := .loop, delivered := [msgOne] }
      = { pendingSys with chans := [true, false, true], pc := .exited,
                          delivered := [msgOne] } :=
  ⟨(send_waits_for_consumer demoEnv { pendingSys with chans := [false, false, true] } msgOne
      rfl).1,
   (send_waits_for_consumer demoEnv { pendingSys with chans := [false, false, true] } msgOne
      rfl).2.2.2.2 (by decide) 2 (by decide)⟩

/-! ## C8: which stop channel the worker selects on -/

/-- C8, as the code behaves: `Close` called on the pipeline `New` returns, before the worker
has run, closes channel 1, the stop channel made by `New`.  The first statement of the
worker then replaces `in.stop` by a fresh channel 2, so its `select` takes the `default`
branch, and the worker goes on to fetch notification `42` and to hand the message to the
consumer.  Called after the worker's first step, the same `Close` makes the worker exit at
its next `select` with nothing delivered. -/
theorem Close_before_first_statement_missed :
    Close (demoSys [notify "42" "one"])
      = .ok (none, { demoSys [notify "42" "one"] with chans := [false, true] }) ∧
    workerRun demoEnv 3 { demoSys [notify "42" "one"] with chans := [false, true] }
      = { demoSys [notify "42" "one"] with
          inb := { demoInbox with stop := 2 }, chans := [false, true, false], pc := .receive } ∧
    (workerRun demoEnv 5 { demoSys [notify "42" "one"] with chans := [false, true] }).pc
      = .send msgOne ∧
    (run demoEnv 6 { demoSys [notify "42" "one"] with chans := [false, true] }).delivered
      = [msgOne] ∧
    (Close (workerRun demoEnv 1 (demoSys [notify "42" "one"]))).toOption.map
        (fun r => ((workerRun demoEnv 9 r.2).pc, (workerRun demoEnv 9 r.2).delivered,
                   (workerRun demoEnv 9 r.2).gets))
      = some (.exited, [], []) := by
  decide

/-! ## C5: events without an identifier -/

/-- C5, counterexample: a successfully received event whose identifier is present and
empty is not skipped.  The worker calls `Get` for it, with the URL
`https://h.example/fetch_email?msgid=&zone=public`, hands the request to the HTTP client,
and goes on to deliver the fetched message. -/
theorem empty_id_is_fetched :
    (notify "" "one").recvErr = none ∧ (notify "" "one").id = some (.str "") ∧
    (workerRun demoEnv 4 (demoSys [notify "" "one"])).pc = .fetch (.str "") (.ok ⟨"one"⟩) ∧
    (workerRun demoEnv 5 (demoSys [notify "" "one"])).gets
      = ["https://h.example/fetch_email?msgid=&zone=public"] ∧
    (workerRun demoEnv 5 (demoSys [notify "" "one"])).sent
      = [{ Method := "GET", URL := ⟨"https://h.example/fetch_email?msgid=&zone=public"⟩,
           Header := [] }] ∧
    (workerRun demoEnv 5 (demoSys [notify "" "one"])).pc = .send msgOne := by
  decide

/-- C5, amended: for every successfully received notification event, the worker decides by
the presence of the identifier alone.  If the event lacks the identifier the worker attempts
no fetch for it (the logs of `Get` calls and of requests are unchanged) and goes back to the
loop condition, from where, unless the stop channel is closed, it waits for the next event.
If the identifier is present, be it the empty string, the worker calls `Get` with
`msgfmt` of that identifier. -/
theorem skip_iff_id_absent (env : Env) (s : Sys) (ev : Notification)
    (rest : List Notification)
    (hpc : s.pc = .receive) (hfr : s.frames = ev :: rest) (hrecv : ev.recvErr = none) :
    (ev.id = none →
      workerStep env s
        = some { s with frames := rest, inb := { s.inb with err := none }, pc := .loop } ∧
      (isClosed s.chans s.inb.stop = false →
        workerRun env 3 s
          = { s with frames := rest, inb := { s.inb with err := none }, pc := .receive })) ∧
    (∀ id, ev.id = some id →
      workerStep env s
        = some { s with frames := rest, inb := { s.inb with err := none },
                        pc := .fetch id ev.reply } ∧
      (workerRun env 2 s).gets = s.gets ++ [s.inb.msgfmt id]) := by
  constructor
  · intro hid
    have h1 := workerStep_receive_noid env s ev rest hpc hfr hid
    rw [hrecv] at h1
    refine ⟨h1, fun hopen => ?_⟩
    exact workerRun_step h1 (workerRun_step (workerStep_loop env _ rfl rfl)
      (workerRun_step (workerStep_select env _ rfl hopen) rfl))
  · intro id hid
    have h1 := workerStep_receive_id env s ev rest id hpc hfr hid
    rw [hrecv] at h1
    refine ⟨h1, ?_⟩
    cases hg : (Inbox.Get env { s.inb with err := none }
        (Inbox.msgfmt { s.inb with err := none } id) ev.reply).2 with
    | error e =>
      rw [workerRun_step h1 (workerRun_step
        (workerStep_fetch_error env _ id ev.reply e rfl hg) rfl)]
      rfl
    | ok resp =>
      rw [workerRun_step h1 (workerRun_step
        (workerStep_fetch_ok env _ id ev.reply resp rfl hg) rfl)]
      rfl

/-- Witness for C5: the sample pipeline waiting for an event that arrives without an
identifier. -/
theorem skip_iff_id_absent_witness :
    workerStep demoEnv { demoSys [notifyNoId, notify "7" "one"] with pc := .receive }
      = some { demoSys [notify "7" "one"] with pc := .loop } :=
  ((skip_iff_id_absent demoEnv { demoSys [notifyNoId, notify "7" "one"] with pc := .receive }
      notifyNoId [notify "7" "one"] rfl rfl rfl).1 rfl).1

/-! ## C6: a body that fails to decode -/

/-- C6, counterexample: in the sample pipeline the content request for event `5` succeeds
and its body `garbage` fails to decode.  The worker records no error, leaves `RX` open and
is back at the loop condition with the next event still to come; it then fetches and
delivers event `6`.  With the body `partial`, whose decoding fails after one body part has
been stored, the partially decoded message is delivered to the consumer. -/
theorem decode_failure_not_fatal :
    (demoEnv.jsonDecode "garbage").2 = some "invalid character" ∧
    workerRun demoEnv 5 (demoSys [notify "5" "garbage", notify "6" "one"])
      = { demoSys [notify "6" "one"] with
          inb := { demoInbox with stop := 2 }, chans := [false, false, false], pc := .loop,
          gets := ["https://h.example/fetch_email?msgid=5&zone=public"],
          sent := [{ Method := "GET",
                     URL := ⟨"https://h.example/fetch_email?msgid=5&zone=public"⟩,
                     Header := [] }] } ∧
    (run demoEnv 12 (demoSys [notify "5" "garbage", notify "6" "one"])).delivered = [msgOne] ∧
    (demoEnv.jsonDecode "partial").2 = some "json: cannot unmarshal string into int" ∧
    (run demoEnv 8 (demoSys [notify "5" "partial"])).delivered = [msgPartial] ∧
    (run demoEnv 8 (demoSys [notify "5" "partial"])).inb.err = none := by
  decide

/-- C6, amended: a failure to decode the fetched body is not treated like a failed fetch.
For every identified event whose content request succeeds, whether or not the decoder
returns an error, the worker leaves the sticky error slot unset, closes no channel, delivers
nothing by itself and does not exit; it filters the message as the decoder left it: with
zero body parts it goes back to the loop condition, otherwise it blocks in the send of that
message on `RX`. -/
theorem decode_error_discarded (env : Env) (s : Sys) (id : JVal)
    (reply : Except Error Response) (resp : Response) (e : Error)
    (hpc : s.pc = .fetch id reply)
    (hget : (s.inb.Get env (s.inb.msgfmt id) reply).2 = .ok resp)
    (_hdec : (env.jsonDecode resp.Body).2 = some e) :
    ∃ s1, workerStep env s = some s1 ∧
      s1.inb.err = none ∧ s1.chans = s.chans ∧ s1.delivered = s.delivered ∧
      s1.frames = s.frames ∧ s1.pc ≠ .exited ∧
      ((env.jsonDecode resp.Body).1.Data.Parts = [] → s1.pc = .loop) ∧
      ((env.jsonDecode resp.Body).1.Data.Parts ≠ [] →
        s1.pc = .send (env.jsonDecode resp.Body).1 ∧
        Next s1 = some (some (env.jsonDecode resp.Body).1,
          { s1 with pc := .loop,
                    delivered := s.delivered ++ [(env.jsonDecode resp.Body).1] })) := by
  refine ⟨_, workerStep_fetch_ok env s id reply resp hpc hget, rfl, rfl, rfl, rfl, ?_, ?_, ?_⟩
  · by_cases hp : (env.jsonDecode resp.Body).1.Data.Parts = [] <;> simp [hp]
  · intro hp
    simp [hp]
  · intro hp
    simp [hp, Next]

/-- Witness for C6: the sample pipeline inside `Get` for event `5`, answered with the
body `garbage`. -/
theorem decode_error_discarded_witness :
    (demoEnv.jsonDecode "garbage").2 = some "invalid character" ∧
    (workerStep demoEnv { demoSys [] with pc := .fetch (.str "5") (.ok ⟨"garbage"⟩) }).map
        (fun s1 => (s1.inb.err, s1.pc, s1.chans))
      = some (none, .loop, [false, false]) := by
  obtain ⟨s1, h1, h2, h3, _, _, _, h7, _⟩ :=
    decode_error_discarded demoEnv { demoSys [] with pc := .fetch (.str "5") (.ok ⟨"garbage"⟩) }
      (.str "5") (.ok ⟨"garbage"⟩) ⟨"garbage"⟩ "invalid character" rfl (by decide) (by decide)
  refine ⟨by decide, ?_⟩
  rw [h1]
  simp only [Option.map_some', h2, h3, h7 (by decide)]
  rfl

/-! ## C3: a failed content request -/

theorem isClosed_closeChan_mono (chans : List Bool) (c d : Nat)
    (h : isClosed chans c = true) : isClosed (closeChan chans d) c = true := by
  simp only [isClosed, closeChan, List.getD_eq_getElem?_getD] at *
  rw [List.getElem?_set]
  split
  · split
    · rfl
    · rename_i hdc hlt
      subst hdc
      rw [List.getElem?_eq_none (Nat.le_of_not_lt hlt)] at h
      simp at h
  · exact h

/-- Once the worker has exited with `RX` closed, nothing the caller or the worker does
changes the program counter, the sticky error or the messages delivered, and `RX` stays
closed. -/
theorem act_exited (env : Env) (acts : List Action) (s : Sys)
    (hpc : s.pc = .exited) (hrx : isClosed s.chans s.inb.RX = true) :
    (acts.foldl (act env) s).pc = .exited ∧
    (acts.foldl (act env) s).inb = s.inb ∧
    (acts.foldl (act env) s).delivered = s.delivered ∧
    isClosed (acts.foldl (act env) s).chans s.inb.RX = true := by
  induction acts generalizing s with
  | nil => exact ⟨hpc, rfl, rfl, hrx⟩
  | cons a acts ih =>
    simp only [List.foldl_cons]
    cases a with
    | worker =>
      have : act env s .worker = s := by simp [act, workerStep_exited env s hpc]
      rw [this]
      exact ih s hpc hrx
    | next =>
      have : act env s .next = s := by simp [act, Next, hpc, hrx]
      rw [this]
      exact ih s hpc hrx
    | close =>
      by_cases hc : isClosed s.chans s.inb.stop = true
      · have : act env s .close = s := by simp [act, Close, hc]
        rw [this]
        exact ih s hpc hrx
      · have : act env s .close = { s with chans := closeChan s.chans s.inb.stop } := by
          simp [act, Close, hc]
        rw [this]
        exact ih _ hpc (isClosed_closeChan_mono _ _ _ hrx)

/-- C3: whenever the content request `Get` of an identified event returns an error, the
worker's step stores that error in the sticky error slot, delivers nothing, exits and
closes `RX`.  Afterwards, whatever the caller and the worker do (in any order and number of
`Next`, `Close` and worker steps), the worker stays exited with no enabled step, no message
is delivered any more, `Next` returns nil without blocking and `Err` returns that same
error. -/
theorem fetch_error_fatal (env : Env) (s : Sys) (id : JVal)
    (reply : Except Error Response) (e : Error)
    (hpc : s.pc = .fetch id reply)
    (hrx : s.inb.RX < s.chans.length)
    (hget : (s.inb.Get env (s.inb.msgfmt id) reply).2 = .error e) :
    ∃ s1, workerStep env s = some s1 ∧
      s1.inb.err = some e ∧ s1.pc = .exited ∧ isClosed s1.chans s1.inb.RX = true ∧
      s1.delivered = s.delivered ∧
      ∀ acts : List Action,
        (acts.foldl (act env) s1).pc = .exited ∧
        workerStep env (acts.foldl (act env) s1) = none ∧
        (acts.foldl (act env) s1).delivered = s.delivered ∧
        Next (acts.foldl (act env) s1) = some (none, acts.foldl (act env) s1) ∧
        Err (acts.foldl (act env) s1) = some e := by
  have hstep := workerStep_fetch_error env s id reply e hpc hget
  obtain ⟨s1, hs1⟩ : ∃ s1, s1 = exitRun { s with
      gets := s.gets ++ [s.inb.msgfmt id],
      sent := s.sent ++ (s.inb.Get env (s.inb.msgfmt id) reply).1.toList,
      inb := { s.inb with err := some e } } := ⟨_, rfl⟩
  rw [← hs1] at hstep
  have herr : s1.inb.err = some e := by rw [hs1]; rfl
  have hpc1 : s1.pc = .exited := by rw [hs1]; rfl
  have hdel : s1.delivered = s.delivered := by rw [hs1]; rfl
  have hclosed : isClosed s1.chans s1.inb.RX = true := by
    rw [hs1]
    exact isClosed_closeChan s.chans s.inb.RX hrx
  refine ⟨s1, hstep, herr, hpc1, hclosed, hdel, ?_⟩
  intro acts
  obtain ⟨h1, h2, h3, h4⟩ := act_exited env acts s1 hpc1 hclosed
  refine ⟨h1, workerStep_exited env _ h1, h3.trans hdel, ?_, ?_⟩
  · rw [← h2] at h4
    simp [Next, h1, h4]
  · simp [Err, h2, herr]

/-- Witness for C3: the sample pipeline inside `Get` for event `5` when the HTTP client
reports a network error. -/
theorem fetch_error_fatal_witness :
    (workerStep demoEnv
        { demoSys [notify "6" "one"] with
          pc := .fetch (.str "5") (.error "dial tcp: connection refused") }).map
        (fun s1 => (s1.inb.err, s1.pc, s1.delivered, (Next s1).map (fun r => r.1), Err s1))
      = some (some "dial tcp: connection refused", .exited, [], some none,
              some "dial tcp: connection refused") := by
  obtain ⟨s1, h1, h2, h3, _, h5, h6⟩ :=
    fetch_error_fatal demoEnv
      { demoSys [notify "6" "one"] with
        pc := .fetch (.str "5") (.error "dial tcp: connection refused") }
      (.str "5") (.error "dial tcp: connection refused") "dial tcp: connection refused"
      rfl (by decide) (by decide)
  have h7 : Next s1 = some (none, s1) := (h6 []).2.2.2.1
  have h8 : Err s1 = some "dial tcp: connection refused" := (h6 []).2.2.2.2
  rw [h1]
  simp only [Option.map_some', h2, h3, h5, h7, h8]
  rfl

/-! ## C1: delivery in arrival order -/

theorem run_add (env : Env) (a b : Nat) (s : Sys) :
    run env (a + b) s = run env b (run env a s) := by
  induction a generalizing s with
  | zero => simp [run]
  | succ a ih =>
    rw [Nat.succ_add]
    simp only [run]
    exact ih (tick env s)

theorem run_fixed (env : Env) (n : Nat) (s : Sys) (h : tick env s = s) : run env n s = s := by
  induction n with
  | zero => rfl
  | succ n ih => simp only [run, h, ih]

theorem tick_of_step {env : Env} {s s1 : Sys} (h : workerStep env s = some s1) :
    tick env s = s1 := by
  simp [tick, h]

theorem tick_send (env : Env) (s : Sys) (msg : Message) (h : s.pc = .send msg) :
    tick env s = { s with pc := .loop, delivered := s.delivered ++ [msg] } := by
  simp [tick, workerStep, Next, h]

theorem tick_receive_nil (env : Env) (s : Sys) (h : s.pc = .receive) (hfr : s.frames = []) :
    tick env s = s := by
  simp [tick, workerStep, h, hfr]

theorem run_step {env : Env} {n : Nat} {s s1 t : Sys} (h : tick env s = s1)
    (ht : run env n s1 = t) : run env (n + 1) s = t := by
  simp only [run, h, ht]

theorem Inbox.err_none_eta (inb : Inbox) (h : inb.err = none) :
    { inb with err := none } = inb := by
  cases inb
  simp only at h
  subst h
  rfl

/-- The loop of `run`, from the loop condition, over a script of events that are all
received and fetched successfully: after at most five ticks per event the worker is back at
the loop condition with the script consumed and the logs extended as expected. -/
theorem run_loop (env : Env) (inb : Inbox) (chans : List Bool) (evs : List Notification)
    (herr : inb.err = none) (hopen : isClosed chans inb.stop = false)
    (hgood : ∀ ev ∈ evs, ev.recvErr = none ∧ ∀ id, ev.id = some id →
      ∃ str u resp, id = .str str ∧ env.urlParse (inb.msgfmt id) = .ok u ∧
        ev.reply = .ok resp)
    (gets : List String) (sent : List Request) (delivered : List Message) :
    ∃ k, k ≤ 5 * evs.length ∧
      run env k { inb := inb, chans := chans, pc := .loop, frames := evs, gets := gets,
                  sent := sent, delivered := delivered }
        = { inb := inb, chans := chans, pc := .loop, frames := [],
            gets := gets ++ expectedFetches inb.host evs,
            sent := sent ++ (expectedFetches inb.host evs).filterMap
              (fun name => (NewRequest env "GET" name).toOption),
            delivered := delivered ++ expectedDeliveries env evs } := by
  induction evs generalizing gets sent delivered with
  | nil => exact ⟨0, by simp, by simp [run, expectedFetches, expectedDeliveries]⟩
  | cons ev rest ih =>
    have hrest : ∀ ev ∈ rest, ev.recvErr = none ∧ ∀ id, ev.id = some id →
        ∃ str u resp, id = .str str ∧ env.urlParse (inb.msgfmt id) = .ok u ∧
          ev.reply = .ok resp := fun e he => hgood e (List.mem_cons_of_mem _ he)
    obtain ⟨hrecv, hev⟩ := hgood ev (List.mem_cons_self _ _)
    have t1 : tick env (Sys.mk inb chans .loop (ev :: rest) gets sent delivered)
        = Sys.mk inb chans .select (ev :: rest) gets sent delivered :=
      tick_of_step (workerStep_loop env _ rfl herr)
    have t2 : tick env (Sys.mk inb chans .select (ev :: rest) gets sent delivered)
        = Sys.mk inb chans .receive (ev :: rest) gets sent delivered :=
      tick_of_step (workerStep_select env _ rfl hopen)
    cases hid : ev.id with
    | none =>
      have t3 : tick env (Sys.mk inb chans .receive (ev :: rest) gets sent delivered)
          = Sys.mk inb chans .loop rest gets sent delivered := by
        rw [tick_of_step (workerStep_receive_noid env _ ev rest rfl rfl hid), hrecv]
        simp only [Inbox.err_none_eta inb herr]
      obtain ⟨k, hk, hrun⟩ := ih hrest gets sent delivered
      refine ⟨k + 3, by simp only [List.length_cons]; omega, ?_⟩
      rw [run_step t1 (run_step t2 (run_step t3 hrun))]
      simp [expectedFetches, expectedDeliveries, hid]
    | some id =>
      obtain ⟨str, u, resp, hstr, hparse, hreply⟩ := hev id hid
      have t3 : tick env (Sys.mk inb chans .receive (ev :: rest) gets sent delivered)
          = Sys.mk inb chans (.fetch id ev.reply) rest gets sent delivered := by
        rw [tick_of_step (workerStep_receive_id env _ ev rest id rfl rfl hid), hrecv]
        simp only [Inbox.err_none_eta inb herr]
      have hget : inb.Get env (inb.msgfmt id) ev.reply
          = (some (Request.mk "GET" u []), .ok resp) := by
        rw [Get_of_parse_ok env inb _ _ u hparse, hreply]
      have hreq : (NewRequest env "GET" (inb.msgfmt id)).toOption
          = some (Request.mk "GET" u []) := by
        simp [NewRequest, hparse, Except.toOption]
      have hfmt : inb.msgfmt id
          = "https://" ++ inb.host ++ "/fetch_email?msgid=" ++ str ++ "&zone=public" := by
        rw [hstr]
        rfl
      have hF : expectedFetches inb.host (ev :: rest)
          = inb.msgfmt id :: expectedFetches inb.host rest := by
        simp only [expectedFetches, List.filterMap_cons, hid, hstr]
        rfl
      have t4 : tick env (Sys.mk inb chans (.fetch id ev.reply) rest gets sent delivered)
          = Sys.mk inb chans
              (if (env.jsonDecode resp.Body).1.Data.Parts.length = 0 then .loop
               else .send (env.jsonDecode resp.Body).1)
              rest (gets ++ [inb.msgfmt id]) (sent ++ [Request.mk "GET" u []]) delivered := by
        rw [tick_of_step (workerStep_fetch_ok env _ id ev.reply resp rfl
          (by simp only [hget]))]
        simp only [hget, Option.toList, Inbox.err_none_eta inb herr]
      by_cases hp : (env.jsonDecode resp.Body).1.Data.Parts = []
      · have hD : expectedDeliveries env (ev :: rest) = expectedDeliveries env rest := by
          simp [expectedDeliveries, hid, hreply, hp]
        simp only [hp, List.length_nil, if_true] at t4
        obtain ⟨k, hk, hrun⟩ := ih hrest (gets ++ [inb.msgfmt id])
          (sent ++ [Request.mk "GET" u []]) delivered
        refine ⟨k + 4, by simp only [List.length_cons]; omega, ?_⟩
        rw [run_step t1 (run_step t2 (run_step t3 (run_step t4 hrun))), hF, hD]
        simp [hreq]
      · have hD : expectedDeliveries env (ev :: rest)
            = (env.jsonDecode resp.Body).1 :: expectedDeliveries env rest := by
          simp [expectedDeliveries, hid, hreply, hp]
        have hlen : ¬ (env.jsonDecode resp.Body).1.Data.Parts.length = 0 := by
          simpa using hp
        simp only [hlen, if_false] at t4
        have t5 := tick_send env
          (Sys.mk inb chans (.send (env.jsonDecode resp.Body).1) rest (gets ++ [inb.msgfmt id])
            (sent ++ [Request.mk "GET" u []]) delivered)
          (env.jsonDecode resp.Body).1 rfl
        obtain ⟨k, hk, hrun⟩ := ih hrest (gets ++ [inb.msgfmt id])
          (sent ++ [Request.mk "GET" u []])
          (delivered ++ [(env.jsonDecode resp.Body).1])
        refine ⟨k + 5, by simp only [List.length_cons]; omega, ?_⟩
        rw [run_step t1 (run_step t2 (run_step t3 (run_step t4 (run_step t5 hrun)))), hF, hD]
        simp [hreq]

theorem expectedFetches_length (env : Env) (host : String) (evs : List Notification)
    (hid : ∀ ev ∈ evs, ∀ id, ev.id = some id → ∃ str u, id = .str str ∧
      env.urlParse ("https://" ++ host ++ "/fetch_email?msgid=" ++ str ++ "&zone=public")
        = .ok u) :
    (expectedFetches host evs).length = evs.countP (fun ev => ev.id.isSome) ∧
    ((expectedFetches host evs).filterMap
      (fun name => (NewRequest env "GET" name).toOption)).length
        = evs.countP (fun ev => ev.id.isSome) := by
  induction evs with
  | nil => simp [expectedFetches]
  | cons ev rest ih =>
    obtain ⟨ih1, ih2⟩ := ih (fun e he => hid e (List.mem_cons_of_mem _ he))
    have ih2' : (List.filterMap (fun name => (NewRequest env "GET" name).toOption)
        (expectedFetches host rest)).length
          = List.countP (fun ev => ev.id.isSome) rest := ih2
    have ih1' : (expectedFetches host rest).length
          = List.countP (fun ev => ev.id.isSome) rest := ih1
    cases hev : ev.id with
    | none =>
      have hF : expectedFetches host (ev :: rest) = expectedFetches host rest := by
        simp [expectedFetches, hev]
      rw [hF, List.countP_cons_of_neg _ _ (by simp [hev])]
      exact ⟨ih1', ih2'⟩
    | some id =>
      obtain ⟨str, u, hstr, hparse⟩ := hid ev (List.mem_cons_self _ _) id hev
      have hF : expectedFetches host (ev :: rest)
          = ("https://" ++ host ++ "/fetch_email?msgid=" ++ str ++ "&zone=public")
              :: expectedFetches host rest := by
        simp [expectedFetches, hev, hstr]
      have hreq : (NewRequest env "GET"
          ("https://" ++ host ++ "/fetch_email?msgid=" ++ str ++ "&zone=public")).toOption
            = some (Request.mk "GET" u []) := by
        simp [NewRequest, hparse, Except.toOption]
      rw [hF, List.countP_cons_of_pos _ _ (by simp [hev])]
      refine ⟨by simp [ih1'], ?_⟩
      simp only [List.filterMap_cons, hreq, List.length_cons, ih2']

/-- C1: for every finite sequence of successfully received notification events whose
identifiers, when present, are non-empty strings, with every fetch succeeding (request
construction, the client and the decoder all succeed), no stop signal and a consumer that
takes every delivery, the run from the start of the worker settles after at most
`5 * evs.length + 3` ticks: the messages taken from `RX` are, in arrival order, exactly the
decoded fetch results of the events that carry an identifier and whose message has at least
one body part; the `Get` calls and the requests handed to the HTTP client are, in arrival
order, exactly one per identified event and none for the others; and the worker, with no
error recorded, waits in `Receive` for the next event. -/
theorem run_delivers_in_arrival_order (env : Env) (s : Sys) (evs : List Notification)
    (hpc : s.pc = .start) (herr : s.inb.err = none) (hfr : s.frames = evs)
    (hrecv : ∀ ev ∈ evs, ev.recvErr = none)
    (hid : ∀ ev ∈ evs, ∀ id, ev.id = some id → ∃ str, id = .str str ∧ str ≠ "")
    (hfetch : ∀ ev ∈ evs, ∀ id, ev.id = some id →
      ∃ u resp, env.urlParse (s.inb.msgfmt id) = .ok u ∧ ev.reply = .ok resp ∧
        (env.jsonDecode resp.Body).2 = none) :
    ∀ n, 5 * evs.length + 3 ≤ n →
      (run env n s).delivered = s.delivered ++ expectedDeliveries env evs ∧
      (run env n s).gets = s.gets ++ expectedFetches s.inb.host evs ∧
      (run env n s).sent = s.sent ++ (expectedFetches s.inb.host evs).filterMap
        (fun name => (NewRequest env "GET" name).toOption) ∧
      (run env n s).gets.length = s.gets.length + evs.countP (fun ev => ev.id.isSome) ∧
      (run env n s).sent.length = s.sent.length + evs.countP (fun ev => ev.id.isSome) ∧
      (run env n s).pc = .receive ∧ (run env n s).frames = [] ∧
      (run env n s).inb.err = none := by
  obtain ⟨inb, chans, pc, frames, gets, sent, delivered⟩ := s
  simp only at hpc herr hfr hfetch
  subst hpc hfr
  have hgood : ∀ ev ∈ frames, ev.recvErr = none ∧ ∀ id, ev.id = some id →
      ∃ str u resp, id = .str str ∧
        env.urlParse (Inbox.msgfmt { inb with stop := chans.length } id) = .ok u ∧
        ev.reply = .ok resp := by
    intro ev hev
    refine ⟨hrecv ev hev, fun id hid1 => ?_⟩
    obtain ⟨str, hs, _⟩ := hid ev hev id hid1
    obtain ⟨u, resp, hp, hr, _⟩ := hfetch ev hev id hid1
    exact ⟨str, u, resp, hs, hp, hr⟩
  have hlen := expectedFetches_length env inb.host frames (by
    intro ev hev id hid1
    obtain ⟨str, hs, _⟩ := hid ev hev id hid1
    obtain ⟨u, resp, hp, _, _⟩ := hfetch ev hev id hid1
    subst hs
    exact ⟨str, u, rfl, hp⟩)
  have hopen : isClosed (chans ++ [false]) chans.length = false := by
    simp [isClosed]
  obtain ⟨k, hk, hrun⟩ := run_loop env { inb with stop := chans.length } (chans ++ [false])
    frames herr hopen hgood gets sent delivered
  have t0 : tick env (Sys.mk inb chans .start frames gets sent delivered)
      = Sys.mk { inb with stop := chans.length } (chans ++ [false]) .loop frames gets sent
          delivered :=
    tick_of_step (workerStep_start env _ rfl)
  have t1 := tick_of_step (workerStep_loop env
    (Sys.mk { inb with stop := chans.length } (chans ++ [false]) .loop []
      (gets ++ expectedFetches inb.host frames)
      (sent ++ (expectedFetches inb.host frames).filterMap
        (fun name => (NewRequest env "GET" name).toOption))
      (delivered ++ expectedDeliveries env frames)) rfl herr)
  have t2 := tick_of_step (workerStep_select env
    (Sys.mk { inb with stop := chans.length } (chans ++ [false]) .select []
      (gets ++ expectedFetches inb.host frames)
      (sent ++ (expectedFetches inb.host frames).filterMap
        (fun name => (NewRequest env "GET" name).toOption))
      (delivered ++ expectedDeliveries env frames)) rfl hopen)
  have hfix := tick_receive_nil env
    (Sys.mk { inb with stop := chans.length } (chans ++ [false]) .receive []
      (gets ++ expectedFetches inb.host frames)
      (sent ++ (expectedFetches inb.host frames).filterMap
        (fun name => (NewRequest env "GET" name).toOption))
      (delivered ++ expectedDeliveries env frames)) rfl rfl
  have hreach : run env (k + 2 + 1) (Sys.mk inb chans .start frames gets sent delivered)
      = Sys.mk { inb with stop := chans.length } (chans ++ [false]) .receive []
          (gets ++ expectedFetches inb.host frames)
          (sent ++ (expectedFetches inb.host frames).filterMap
            (fun name => (NewRequest env "GET" name).toOption))
          (delivered ++ expectedDeliveries env frames) := by
    refine run_step t0 ?_
    rw [run_add, hrun]
    exact run_step t1 (run_step t2 rfl)
  intro n hn
  obtain ⟨m, rfl⟩ : ∃ m, n = (k + 2 + 1) + m := ⟨n - (k + 2 + 1), by omega⟩
  rw [run_add, hreach, run_fixed env m _ hfix]
  refine ⟨rfl, rfl, rfl, ?_, ?_, rfl, rfl, herr⟩
  · simp only [List.length_append]
    rw [hlen.1]
  · simp only [List.length_append]
    rw [hlen.2]

/-- Witness for C1: the sample pipeline receiving an event without identifier, event `7`
with a one-part message, event `9` with a message without parts and event `42` with a
one-part message. -/
theorem run_delivers_in_arrival_order_witness :
    (run demoEnv 23 (demoSys [notifyNoId, notify "7" "one", notify "9" "noparts",
        notify "42" "one"])).delivered = [msgOne, msgOne] ∧
    (run demoEnv 23 (demoSys [notifyNoId, notify "7" "one", notify "9" "noparts",
        notify "42" "one"])).gets
      = ["https://h.example/fetch_email?msgid=7&zone=public",
         "https://h.example/fetch_email?msgid=9&zone=public",
         "https://h.example/fetch_email?msgid=42&zone=public"] := by
  have h := run_delivers_in_arrival_order demoEnv
    (demoSys [notifyNoId, notify "7" "one", notify "9" "noparts", notify "42" "one"])
    [notifyNoId, notify "7" "one", notify "9" "noparts", notify "42" "one"] rfl rfl rfl
    (by decide)
    (by
      intro ev hev id hid
      simp only [List.mem_cons, List.mem_singleton, List.not_mem_nil, or_false] at hev
      rcases hev with rfl | rfl | rfl | rfl
      · simp [notifyNoId] at hid
      · exact ⟨"7", by simpa [notify] using hid.symm, by decide⟩
      · exact ⟨"9", by simpa [notify] using hid.symm, by decide⟩
      · exact ⟨"42", by simpa [notify] using hid.symm, by decide⟩)
    (by
      intro ev hev id hid
      simp only [List.mem_cons, List.mem_singleton, List.not_mem_nil, or_false] at hev
      rcases hev with rfl | rfl | rfl | rfl
      · simp [notifyNoId] at hid
      · have : id = .str "7" := by simpa [notify] using hid.symm
        subst this
        exact ⟨⟨"https://h.example/fetch_email?msgid=7&zone=public"⟩, ⟨"one"⟩,
          by decide, rfl, by decide⟩
      · have : id = .str "9" := by simpa [notify] using hid.symm
        subst this
        exact ⟨⟨"https://h.example/fetch_email?msgid=9&zone=public"⟩, ⟨"noparts"⟩,
          by decide, rfl, by decide⟩
      · have : id = .str "42" := by simpa [notify] using hid.symm
        subst this
        exact ⟨⟨"https://h.example/fetch_email?msgid=42&zone=public"⟩, ⟨"one"⟩,
          by decide, rfl, by decide⟩)
    23 (by decide)
  exact ⟨h.1.trans (by decide), h.2.1.trans (by decide)⟩

end Wscan
